import Mathlib

/-!
# Verification of the Claude CLI invocation adapter

Shallow embedding of `marker/services/claude_agent.py`
(`ClaudeAgentService`): the `_call_cli` parsing/classification helper and
the retry/backoff loop of `__call__`, together with the temp-image
save/cleanup bracketing.

Modelling conventions:
* a Python dict result is a `Dict := List (String × String)`; Python
  truthiness of a dict is non-emptiness;
* the external world is an oracle: each invocation attempt either raises
  one of the exception kinds the loop handles (`CliExn`) or returns the
  pair `(structured_output, total_tokens)` computed by `_call_cli`
  (`attempts : Nat → Except CliExn (Dict × Nat)`), and `callCli` maps a
  raw subprocess outcome (`CliRun`) into that space exactly as
  `_call_cli` does;
* observable side effects (invocation attempts, `time.sleep`,
  `block.update_metadata`, `os.remove`) are collected in an event trace.
-/

deriving instance DecidableEq for Except

/-- A Python dict (the structured-output payload). Truthiness = non-empty. -/
abbrev Dict := List (String × String)

/-- The `usage` object of the CLI response envelope; each counter may be
absent (`response.get` / `usage.get` defaulting). -/
structure Usage where
  input_tokens : Option Nat
  cache_creation_input_tokens : Option Nat
  cache_read_input_tokens : Option Nat
  output_tokens : Option Nat
deriving DecidableEq

/-- A parsed CLI response envelope (`json.loads(result.stdout)` succeeded).
Each field may be absent, mirroring `response.get(..., default)`. -/
structure Response where
  is_error : Option Bool
  structured_output : Option Dict
  usage : Option Usage
deriving DecidableEq

/-- The stdout of a completed subprocess: either not parseable as JSON
(`json.loads` raises `json.JSONDecodeError`) or a parsed envelope. -/
inductive StdoutContent where
  | malformed : StdoutContent
  | json (resp : Response) : StdoutContent
deriving DecidableEq

/-- Raw outcome of one `subprocess.run` invocation: the process either hits
the wall-clock timeout (`subprocess.TimeoutExpired`) or completes with an
exit code, stderr text and stdout content. -/
inductive CliRun where
  | timeoutExpired : CliRun
  | completed (returncode : Int) (stderr : String) (stdout : StdoutContent) : CliRun
deriving DecidableEq

/-- The exception kinds handled by the retry loop of `__call__`, one per
`except` clause: `subprocess.TimeoutExpired`, `json.JSONDecodeError`,
`RuntimeError` (carrying its message) and the catch-all `except Exception`. -/
inductive CliExn where
  | timeoutExpired : CliExn
  | jsonDecodeError : CliExn
  | runtimeError (msg : String) : CliExn
  | otherException : CliExn
deriving DecidableEq

/-- Observable side effects of one call, in order of occurrence. -/
inductive Event where
  /-- invocation attempt number `k` (1-indexed) was started -/
  | attempt (k : Nat) : Event
  /-- `time.sleep(secs)` -/
  | sleep (secs : Nat) : Event
  /-- `block.update_metadata(llm_tokens_used=tokens, llm_request_count=requestCount)` -/
  | report (tokens : Nat) (requestCount : Nat) : Event
  /-- `os.remove(path)` was attempted -/
  | remove (path : String) : Event
deriving DecidableEq

/-- `pat.isPrefixOf s || pat in (tail of s)`: Python substring containment
on character lists. -/
def subList : List Char → List Char → Bool
  | pat, [] => pat.isEmpty
  | pat, c :: rest => pat.isPrefixOf (c :: rest) || subList pat rest

/-- Python `pat in s` (substring containment). -/
def strIn (pat s : String) : Bool := subList pat.toList s.toList

/-- Python `s.lower()` (per-character lowering; identical for the ASCII
error messages classified here). -/
def strLower (s : String) : String := String.mk (s.data.map Char.toLower)

/-- Sum of the four usage counters, missing counters contributing 0:
`usage.get("input_tokens", 0) + usage.get("cache_creation_input_tokens", 0)
+ usage.get("cache_read_input_tokens", 0) + usage.get("output_tokens", 0)`. -/
def totalTokens (usage : Usage) : Nat :=
  usage.input_tokens.getD 0 +
  usage.cache_creation_input_tokens.getD 0 +
  usage.cache_read_input_tokens.getD 0 +
  usage.output_tokens.getD 0

/-- The empty `usage` default: `response.get("usage", {})`. -/
def emptyUsage : Usage := ⟨none, none, none, none⟩

/-- `ClaudeAgentService._call_cli`, given the raw subprocess outcome:
re-raises the timeout; raises `RuntimeError(f"Claude CLI error: {error_msg}")`
on non-zero exit with `error_msg = result.stderr or "Unknown CLI error"`;
raises `json.JSONDecodeError` on unparseable stdout; otherwise returns
`(response.get("structured_output", {}), total_tokens)`. -/
def callCli (run : CliRun) : Except CliExn (Dict × Nat) :=
  match run with
  | .timeoutExpired => .error .timeoutExpired
  | .completed returncode stderr stdout =>
    if returncode ≠ 0 then
      .error (.runtimeError
        ("Claude CLI error: " ++ (if stderr = "" then "Unknown CLI error" else stderr)))
    else
      match stdout with
      | .malformed => .error .jsonDecodeError
      | .json resp =>
        .ok (resp.structured_output.getD [], totalTokens (resp.usage.getD emptyUsage))

/-- The retry loop body of `__call__` (`for tries in range(1, total_tries + 1)`),
with the remaining iteration budget as structural fuel
(`fuel = totalTries + 1 - tries` at every call). Returns the event trace of
the loop and the dict the loop produces (`{}` when the loop ends without a
successful return). `rwt` is `self.retry_wait_time`, `block` records whether
a metadata sink was supplied. -/
def runLoopAux (rwt : Nat) (block : Bool)
    (attempts : Nat → Except CliExn (Dict × Nat)) (totalTries : Nat) :
    Nat → Nat → List Event × Dict
  | 0, _ => ([], [])
  | fuel + 1, tries =>
    match attempts tries with
    | .ok (resultDict, total_tokens) =>
      -- `if block and total_tokens > 0: block.update_metadata(...)`
      let reports := if block ∧ 0 < total_tokens then [Event.report total_tokens 1] else []
      -- `if result_dict: return result_dict`
      if resultDict ≠ [] then
        (Event.attempt tries :: reports, resultDict)
      else
        -- `if tries < total_tries: continue`, else the loop ends, `return {}`
        if tries < totalTries then
          let rest := runLoopAux rwt block attempts totalTries fuel (tries + 1)
          (Event.attempt tries :: reports ++ rest.1, rest.2)
        else
          (Event.attempt tries :: reports, [])
    | .error .timeoutExpired =>
      -- `except subprocess.TimeoutExpired`
      if tries = totalTries then
        ([Event.attempt tries], [])
      else
        let rest := runLoopAux rwt block attempts totalTries fuel (tries + 1)
        (Event.attempt tries :: Event.sleep (tries * rwt) :: rest.1, rest.2)
    | .error .jsonDecodeError =>
      -- `except json.JSONDecodeError`: break
      ([Event.attempt tries], [])
    | .error (.runtimeError msg) =>
      -- `except RuntimeError`: `error_str = str(e).lower()`
      if strIn "rate" (strLower msg) || strIn "limit" (strLower msg) then
        if tries = totalTries then
          ([Event.attempt tries], [])
        else
          let rest := runLoopAux rwt block attempts totalTries fuel (tries + 1)
          (Event.attempt tries :: Event.sleep (tries * rwt) :: rest.1, rest.2)
      else
        ([Event.attempt tries], [])
    | .error .otherException =>
      -- `except Exception`: break
      ([Event.attempt tries], [])

/-- The retry loop of `__call__` starting at attempt `tries`. -/
def runLoop (rwt : Nat) (block : Bool)
    (attempts : Nat → Except CliExn (Dict × Nat)) (totalTries tries : Nat) :
    List Event × Dict :=
  runLoopAux rwt block attempts totalTries (totalTries + 1 - tries) tries

/-- `ClaudeAgentService._save_images_to_temp`: one uniquely named temp path
per image, `f"/tmp/claude_img_{uuid.uuid4().hex}.webp"`; the uuid hex of
each image is supplied by the oracle list `uuids`. -/
def saveImagesToTemp (uuids : List String) : List String :=
  uuids.map (fun h => "/tmp/claude_img_" ++ h ++ ".webp")

/-- `ClaudeAgentService._cleanup_temp_files`: attempts `os.remove(path)` for
every path; an `OSError` (oracle `removeOk path = false`) is caught and
logged, and the iteration continues. -/
def cleanupTempFiles (removeOk : String → Bool) : List String → List Event
  | [] => []
  | p :: ps =>
    match (if removeOk p then Except.ok () else Except.error ()) with
    | Except.ok _ => Event.remove p :: cleanupTempFiles removeOk ps
    | Except.error _ => Event.remove p :: cleanupTempFiles removeOk ps

/-- Adapter-wide configuration (`BaseService` fields used by `__call__`). -/
structure Config where
  max_retries : Nat
  retry_wait_time : Nat
  claude_agent_timeout_seconds : Nat := 120
deriving DecidableEq

/-- `ClaudeAgentService.__call__`: resolves the retry budget, saves the
images to temp files, runs the retry loop from attempt 1 with
`total_tries = max_retries + 1`, and — in the `finally` block, on every
exit path of the `try` — cleans up the temp files before returning.
Returns the full event trace and the resulting dict. -/
def callService (cfg : Config) (block : Bool) (uuids : List String)
    (removeOk : String → Bool)
    (attempts : Nat → Except CliExn (Dict × Nat))
    (maxRetriesOpt : Option Nat) : List Event × Dict :=
  let max_retries := maxRetriesOpt.getD cfg.max_retries
  let temp_paths := saveImagesToTemp uuids
  let total_tries := max_retries + 1
  let res := runLoop cfg.retry_wait_time block attempts total_tries 1
  (res.1 ++ cleanupTempFiles removeOk temp_paths, res.2)

/-- Number of invocation attempts recorded in a trace. -/
def countAttempts (evs : List Event) : Nat :=
  (evs.filter fun e => match e with | .attempt _ => true | _ => false).length

/-- Number of usage reports recorded in a trace. -/
def countReports (evs : List Event) : Nat :=
  (evs.filter fun e => match e with | .report _ _ => true | _ => false).length

/-! ## Loop step and induction lemmas -/

lemma runLoopAux_zero (rwt : Nat) (block : Bool)
    (attempts : Nat → Except CliExn (Dict × Nat)) (totalTries tries : Nat) :
    runLoopAux rwt block attempts totalTries 0 tries = ([], []) := rfl

lemma runLoop_fuel (rwt : Nat) (block : Bool)
    (attempts : Nat → Except CliExn (Dict × Nat)) (totalTries tries : Nat)
    (h : tries ≤ totalTries) :
    runLoop rwt block attempts totalTries tries =
      runLoopAux rwt block attempts totalTries ((totalTries - tries) + 1) tries := by
  unfold runLoop
  congr 1
  omega

lemma runLoop_fuel_next (rwt : Nat) (block : Bool)
    (attempts : Nat → Except CliExn (Dict × Nat)) (totalTries tries : Nat) :
    runLoop rwt block attempts totalTries (tries + 1) =
      runLoopAux rwt block attempts totalTries (totalTries - tries) (tries + 1) := by
  unfold runLoop
  congr 1
  omega

/-- One unfolding of the loop when `_call_cli` returns `(d, t)` without
raising: the usage report is emitted whenever the sink is present and the
token sum positive — before the payload emptiness test — and the loop
returns `d` when non-empty, otherwise proceeds to the next iteration. -/
lemma runLoop_ok (rwt : Nat) (block : Bool)
    (attempts : Nat → Except CliExn (Dict × Nat)) (totalTries tries : Nat)
    (d : Dict) (t : Nat)
    (h : tries ≤ totalTries) (ha : attempts tries = .ok (d, t)) :
    runLoop rwt block attempts totalTries tries =
      (Event.attempt tries :: (if block ∧ 0 < t then [Event.report t 1] else []) ++
        (if d = [] then (runLoop rwt block attempts totalTries (tries + 1)).1 else []),
       if d = [] then (runLoop rwt block attempts totalTries (tries + 1)).2 else d) := by
  rw [runLoop_fuel rwt block attempts totalTries tries h]
  rw [runLoop_fuel_next rwt block attempts totalTries tries]
  simp only [runLoopAux, ha]
  by_cases hd : d = []
  · by_cases hlt : tries < totalTries
    · simp [hd, hlt]
    · have he : tries = totalTries := by omega
      subst he
      have h0 : tries - tries = 0 := by omega
      simp [hd, hlt, h0, runLoopAux_zero]
  · simp [hd]

/-- One unfolding of the loop on a retryable failure (timeout, or a
`RuntimeError` whose lowercased message contains "rate" or "limit") that is
not the last attempt: sleep `tries * retry_wait_time`, then next iteration. -/
lemma runLoop_retryable (rwt : Nat) (block : Bool)
    (attempts : Nat → Except CliExn (Dict × Nat)) (totalTries tries : Nat)
    (hlt : tries < totalTries)
    (ha : attempts tries = .error .timeoutExpired ∨
      ∃ msg, attempts tries = .error (.runtimeError msg) ∧
        (strIn "rate" (strLower msg) || strIn "limit" (strLower msg)) = true) :
    runLoop rwt block attempts totalTries tries =
      (Event.attempt tries :: Event.sleep (tries * rwt) ::
        (runLoop rwt block attempts totalTries (tries + 1)).1,
       (runLoop rwt block attempts totalTries (tries + 1)).2) := by
  have hne : tries ≠ totalTries := by omega
  rw [runLoop_fuel rwt block attempts totalTries tries (by omega)]
  rw [runLoop_fuel_next rwt block attempts totalTries tries]
  rcases ha with ha | ⟨msg, ha, hc⟩
  · simp [runLoopAux, ha, hne]
  · simp [runLoopAux, ha, hc, hne]

/-- One unfolding of the loop on a terminal `RuntimeError` (message without
"rate"/"limit"): the loop stops at once with the empty dict. -/
lemma runLoop_runtime_terminal (rwt : Nat) (block : Bool)
    (attempts : Nat → Except CliExn (Dict × Nat)) (totalTries tries : Nat) (msg : String)
    (h : tries ≤ totalTries)
    (ha : attempts tries = .error (.runtimeError msg))
    (hr : strIn "rate" (strLower msg) = false)
    (hl : strIn "limit" (strLower msg) = false) :
    runLoop rwt block attempts totalTries tries = ([Event.attempt tries], []) := by
  rw [runLoop_fuel rwt block attempts totalTries tries h]
  simp [runLoopAux, ha, hr, hl]

lemma cleanupTempFiles_eq_map (removeOk : String → Bool) (paths : List String) :
    cleanupTempFiles removeOk paths = paths.map Event.remove := by
  induction paths with
  | nil => rfl
  | cons p ps ih =>
    unfold cleanupTempFiles
    split <;> simp [ih]

/-- The dict the loop produces is empty, or a non-empty payload that some
attempt returned via `Except.ok`. -/
lemma runLoopAux_result (rwt : Nat) (block : Bool)
    (attempts : Nat → Except CliExn (Dict × Nat)) (totalTries : Nat) :
    ∀ fuel tries,
      (runLoopAux rwt block attempts totalTries fuel tries).2 = [] ∨
      ((runLoopAux rwt block attempts totalTries fuel tries).2 ≠ [] ∧
        ∃ k t, attempts k = .ok ((runLoopAux rwt block attempts totalTries fuel tries).2, t)) := by
  intro fuel
  induction fuel with
  | zero => intro tries; left; rfl
  | succ n ih =>
    intro tries
    simp only [runLoopAux]
    cases ha : attempts tries with
    | ok p =>
      obtain ⟨d, t⟩ := p
      by_cases hd : d = []
      · by_cases hlt : tries < totalTries
        · simpa [hd, hlt] using ih (tries + 1)
        · left; simp [hd, hlt]
      · right
        constructor
        · simp [hd]
        · exact ⟨tries, t, by simp [ha, hd]⟩
    | error e =>
      cases e with
      | timeoutExpired =>
        by_cases he : tries = totalTries
        · left; simp [he]
        · simpa [he] using ih (tries + 1)
      | jsonDecodeError => left; rfl
      | runtimeError msg =>
        by_cases hc : (strIn "rate" (strLower msg) || strIn "limit" (strLower msg)) = true
        · by_cases he : tries = totalTries
          · left; simp [hc, he]
          · simpa [hc, he] using ih (tries + 1)
        · left; simp [hc]
      | otherException => left; rfl

lemma countAttempts_cons_attempt (k : Nat) (l : List Event) :
    countAttempts (Event.attempt k :: l) = countAttempts l + 1 := by
  simp [countAttempts, List.filter_cons]

lemma countAttempts_cons_sleep (s : Nat) (l : List Event) :
    countAttempts (Event.sleep s :: l) = countAttempts l := by
  simp [countAttempts, List.filter_cons]

lemma countAttempts_append (a b : List Event) :
    countAttempts (a ++ b) = countAttempts a + countAttempts b := by
  simp [countAttempts, List.filter_append]

lemma countAttempts_reports (block : Bool) (t : Nat) :
    countAttempts (if block ∧ 0 < t then [Event.report t 1] else []) = 0 := by
  split <;> rfl

lemma countAttempts_map_remove (paths : List String) :
    countAttempts (paths.map Event.remove) = 0 := by
  induction paths with
  | nil => rfl
  | cons p ps ih => simp [countAttempts, List.filter_cons] at ih ⊢

/-- Each loop iteration records exactly one invocation attempt, so the
number of attempts is bounded by the fuel. -/
lemma runLoopAux_countAttempts (rwt : Nat) (block : Bool)
    (attempts : Nat → Except CliExn (Dict × Nat)) (totalTries : Nat) :
    ∀ fuel tries,
      countAttempts (runLoopAux rwt block attempts totalTries fuel tries).1 ≤ fuel := by
  intro fuel
  induction fuel with
  | zero => intro tries; simp [runLoopAux_zero, countAttempts]
  | succ n ih =>
    intro tries
    simp only [runLoopAux]
    cases ha : attempts tries with
    | ok p =>
      obtain ⟨d, t⟩ := p
      by_cases hd : d = []
      · by_cases hlt : tries < totalTries
        · have := ih (tries + 1)
          simp [hd, hlt, countAttempts_cons_attempt, countAttempts_append,
            countAttempts_reports]
          omega
        · simp [hd, hlt, countAttempts_cons_attempt, countAttempts_append,
            countAttempts_reports]
      · simp [hd, countAttempts_cons_attempt, countAttempts_append, countAttempts_reports]
    | error e =>
      cases e with
      | timeoutExpired =>
        by_cases he : tries = totalTries
        · simp [he, countAttempts_cons_attempt, countAttempts]
        · have := ih (tries + 1)
          simp [he, countAttempts_cons_attempt, countAttempts_cons_sleep]
          omega
      | jsonDecodeError => simp [countAttempts_cons_attempt, countAttempts]
      | runtimeError msg =>
        by_cases hc : (strIn "rate" (strLower msg) || strIn "limit" (strLower msg)) = true
        · by_cases he : tries = totalTries
          · simp [hc, he, countAttempts_cons_attempt, countAttempts]
          · have := ih (tries + 1)
            simp [hc, he, countAttempts_cons_attempt, countAttempts_cons_sleep]
            omega
        · simp [hc, countAttempts_cons_attempt, countAttempts]
      | otherException => simp [countAttempts_cons_attempt, countAttempts]

/-! ## Claims -/

/-- Attempt oracle used for the C1 counterexample: attempt 1 parses an
envelope with an empty payload but 5 tokens of usage, attempt 2 succeeds
with 7 tokens. -/
def attemptsEmptyThenFull : Nat → Except CliExn (Dict × Nat) :=
  fun k => if k = 1 then .ok ([], 5) else .ok ([("a", "b")], 7)

/-- C1 (counterexample): the claim says no attempt that produced an empty
payload ever causes a usage report and at most one report is forwarded per
call. In the code, `block.update_metadata` runs before the payload
emptiness test, so with a sink present, attempt 1 returning an empty
payload with 5 tokens forwards a report, and the call forwards two reports
in total. -/
theorem claim1_counterexample :
    attemptsEmptyThenFull 1 = .ok ([], 5) ∧
    callService ⟨0, 1, 120⟩ true [] (fun _ => true) attemptsEmptyThenFull (some 1) =
      ([Event.attempt 1, Event.report 5 1, Event.attempt 2, Event.report 7 1],
       [("a", "b")]) ∧
    countReports
      (callService ⟨0, 1, 120⟩ true [] (fun _ => true) attemptsEmptyThenFull (some 1)).1
      = 2 := by
  decide

/-- C1 (amended): for every attempt whose envelope parses as `(d, t)`, a
usage report `(t, request count 1)` is forwarded exactly when a sink is
present and `t` is positive — regardless of whether the payload `d` is
empty — after which the call returns `d` if non-empty and otherwise
proceeds to the next iteration; so a call forwards up to one report per
parsed attempt, not at most one per call. -/
theorem claim1_amended_report_per_parsed_attempt
    (rwt : Nat) (block : Bool) (attempts : Nat → Except CliExn (Dict × Nat))
    (totalTries tries : Nat) (d : Dict) (t : Nat)
    (h : tries ≤ totalTries) (ha : attempts tries = .ok (d, t)) :
    runLoop rwt block attempts totalTries tries =
      (Event.attempt tries :: (if block ∧ 0 < t then [Event.report t 1] else []) ++
        (if d = [] then (runLoop rwt block attempts totalTries (tries + 1)).1 else []),
       if d = [] then (runLoop rwt block attempts totalTries (tries + 1)).2 else d) :=
  runLoop_ok rwt block attempts totalTries tries d t h ha

/-- Witness for the amended C1 at a concrete input: a single attempt with
empty payload and 5 tokens, sink present, forwards the report before
recursing. -/
theorem claim1_amended_witness :
    (1 : Nat) ≤ 2 ∧
    (fun _ : Nat => (Except.ok ([], 5) : Except CliExn (Dict × Nat))) 1 = .ok ([], 5) ∧
    runLoop 1 true (fun _ : Nat => (Except.ok ([], 5) : Except CliExn (Dict × Nat))) 2 1 =
      (Event.attempt 1 :: [Event.report 5 1] ++
        (runLoop 1 true (fun _ : Nat => (Except.ok ([], 5) : Except CliExn (Dict × Nat))) 2 2).1,
       (runLoop 1 true (fun _ : Nat => (Except.ok ([], 5) : Except CliExn (Dict × Nat))) 2 2).2) :=
  ⟨by decide, rfl,
    claim1_amended_report_per_parsed_attempt 1 true _ 2 1 [] 5 (by decide) rfl⟩

/-- C2: for every input — in particular for every behaviour of the
attempts, each one either returning a parsed `(payload, tokens)` pair or
raising one of the classified exception kinds (`CliExn` enumerates the
loop's `except` clauses: process timeout, tool-reported `RuntimeError`,
malformed response, any other fault) — the call returns a dict: the empty
dict, or a non-empty payload produced by some attempt. `callService` is a
total function on this space, which is the absorption of all classified
error kinds. -/
theorem claim2_absorbs_all_errors :
    ∀ (cfg : Config) (block : Bool) (uuids : List String) (removeOk : String → Bool)
      (attempts : Nat → Except CliExn (Dict × Nat)) (mro : Option Nat),
      (callService cfg block uuids removeOk attempts mro).2 = [] ∨
      ((callService cfg block uuids removeOk attempts mro).2 ≠ [] ∧
        ∃ k t, attempts k = .ok ((callService cfg block uuids removeOk attempts mro).2, t)) := by
  intro cfg block uuids removeOk attempts mro
  have h := runLoopAux_result cfg.retry_wait_time block attempts
    (mro.getD cfg.max_retries + 1) ((mro.getD cfg.max_retries + 1) + 1 - 1) 1
  simpa [callService, runLoop] using h

/-- C3: for every input and every exit path of the loop (quantification
over all attempt behaviours), the trace of the call ends with one
`os.remove` attempt per temp image file created, and each removal is
attempted no matter whether earlier removals fail (`removeOk` arbitrary):
the `finally` block runs `_cleanup_temp_files` over all saved paths before
the call returns. -/
theorem claim3_cleanup_on_every_path :
    ∀ (cfg : Config) (block : Bool) (uuids : List String) (removeOk : String → Bool)
      (attempts : Nat → Except CliExn (Dict × Nat)) (mro : Option Nat),
      cleanupTempFiles removeOk (saveImagesToTemp uuids) =
        (saveImagesToTemp uuids).map Event.remove ∧
      (callService cfg block uuids removeOk attempts mro).1 =
        (runLoop cfg.retry_wait_time block attempts (mro.getD cfg.max_retries + 1) 1).1 ++
          (saveImagesToTemp uuids).map Event.remove ∧
      ∀ p ∈ saveImagesToTemp uuids,
        Event.remove p ∈ (callService cfg block uuids removeOk attempts mro).1 := by
  intro cfg block uuids removeOk attempts mro
  have h1 : (callService cfg block uuids removeOk attempts mro).1 =
      (runLoop cfg.retry_wait_time block attempts (mro.getD cfg.max_retries + 1) 1).1 ++
        (saveImagesToTemp uuids).map Event.remove := by
    simp [callService, cleanupTempFiles_eq_map]
  refine ⟨cleanupTempFiles_eq_map removeOk _, h1, ?_⟩
  intro p hp
  rw [h1]
  exact List.mem_append_right _ (List.mem_map_of_mem _ hp)

/-- Witness for C3 at a concrete input: one image, one terminal attempt,
every removal failing — the removal of the created temp file is still
attempted before the call returns. -/
theorem claim3_witness :
    "/tmp/claude_img_ab.webp" ∈ saveImagesToTemp ["ab"] ∧
    Event.remove "/tmp/claude_img_ab.webp" ∈
      (callService ⟨0, 1, 120⟩ false ["ab"] (fun _ => false)
        (fun _ => .error .otherException) none).1 :=
  ⟨by decide,
    (claim3_cleanup_on_every_path ⟨0, 1, 120⟩ false ["ab"] (fun _ => false)
      (fun _ => .error .otherException) none).2.2 _ (by decide)⟩

/-- C4: for every input the call makes at most `maxRetries + 1` invocation
attempts (with the per-call override taking precedence over the configured
default); and with `maxRetries = 2` and a tool that times out on every
attempt, exactly 3 attempts are made and the result is the empty dict. -/
theorem claim4_attempt_bound :
    (∀ (cfg : Config) (block : Bool) (uuids : List String) (removeOk : String → Bool)
      (attempts : Nat → Except CliExn (Dict × Nat)) (mro : Option Nat),
      countAttempts (callService cfg block uuids removeOk attempts mro).1 ≤
        mro.getD cfg.max_retries + 1) ∧
    countAttempts
      (callService ⟨0, 7, 120⟩ false [] (fun _ => true)
        (fun _ => .error .timeoutExpired) (some 2)).1 = 3 ∧
    (callService ⟨0, 7, 120⟩ false [] (fun _ => true)
      (fun _ => .error .timeoutExpired) (some 2)).2 = [] := by
  refine ⟨?_, by decide, by decide⟩
  intro cfg block uuids removeOk attempts mro
  have hb := runLoopAux_countAttempts cfg.retry_wait_time block attempts
    (mro.getD cfg.max_retries + 1) ((mro.getD cfg.max_retries + 1) + 1 - 1) 1
  have he : (mro.getD cfg.max_retries + 1) + 1 - 1 = mro.getD cfg.max_retries + 1 := by omega
  rw [he] at hb
  simpa [callService, runLoop, he, countAttempts_append, cleanupTempFiles_eq_map,
    countAttempts_map_remove] using hb

/-- C5: whenever attempt `tries` fails with a process timeout, or with a
tool-reported error whose lowercased message contains "rate" or "limit",
and it is not the last attempt, the loop sleeps exactly
`tries * retry_wait_time` seconds and then starts attempt `tries + 1`. -/
theorem claim5_linear_backoff
    (rwt : Nat) (block : Bool) (attempts : Nat → Except CliExn (Dict × Nat))
    (totalTries tries : Nat)
    (hlt : tries < totalTries)
    (hfail : attempts tries = .error .timeoutExpired ∨
      ∃ msg, attempts tries = .error (.runtimeError msg) ∧
        (strIn "rate" (strLower msg) || strIn "limit" (strLower msg)) = true) :
    runLoop rwt block attempts totalTries tries =
      (Event.attempt tries :: Event.sleep (tries * rwt) ::
        (runLoop rwt block attempts totalTries (tries + 1)).1,
       (runLoop rwt block attempts totalTries (tries + 1)).2) :=
  runLoop_retryable rwt block attempts totalTries tries hlt hfail

/-- Attempt oracle for the C5 witness: attempt 1 reports a rate-limit
error, attempt 2 succeeds. -/
def attemptsRateLimited : Nat → Except CliExn (Dict × Nat) :=
  fun k => if k = 1 then .error (.runtimeError "Claude CLI error: Rate limit exceeded")
    else .ok ([("k", "v")], 0)

/-- Witness for C5: with `max_retries = 1` an error message containing
"Rate limit exceeded" yields a sleep of `1 * retry_wait_time` before
attempt 2. -/
theorem claim5_witness :
    (1 : Nat) < 2 ∧
    attemptsRateLimited 1 = .error (.runtimeError "Claude CLI error: Rate limit exceeded") ∧
    (strIn "rate" (strLower "Claude CLI error: Rate limit exceeded") ||
      strIn "limit" (strLower "Claude CLI error: Rate limit exceeded")) = true ∧
    runLoop 4 false attemptsRateLimited 2 1 =
      (Event.attempt 1 :: Event.sleep (1 * 4) ::
        (runLoop 4 false attemptsRateLimited 2 2).1,
       (runLoop 4 false attemptsRateLimited 2 2).2) :=
  ⟨by decide, by decide, by decide,
    claim5_linear_backoff 4 false attemptsRateLimited 2 1 (by decide)
      (Or.inr ⟨"Claude CLI error: Rate limit exceeded", by decide, by decide⟩)⟩

/-- C6: a tool-reported error (non-zero exit) whose classification string —
`f"Claude CLI error: {result.stderr or 'Unknown CLI error'}"`, lowercased —
contains neither "rate" nor "limit" is terminal: the call stops after that
first attempt, performs cleanup, and returns the empty dict, for every
retry budget. -/
theorem claim6_terminal_error
    (cfg : Config) (block : Bool) (uuids : List String) (removeOk : String → Bool)
    (attempts : Nat → Except CliExn (Dict × Nat)) (mro : Option Nat)
    (rc : Int) (stderr : String) (out : StdoutContent)
    (hatt : attempts 1 = callCli (.completed rc stderr out))
    (hrc : rc ≠ 0)
    (hr : strIn "rate" (strLower ("Claude CLI error: " ++
      (if stderr = "" then "Unknown CLI error" else stderr))) = false)
    (hl : strIn "limit" (strLower ("Claude CLI error: " ++
      (if stderr = "" then "Unknown CLI error" else stderr))) = false) :
    callService cfg block uuids removeOk attempts mro =
      (Event.attempt 1 :: cleanupTempFiles removeOk (saveImagesToTemp uuids), []) := by
  have hmsg : attempts 1 = .error (.runtimeError ("Claude CLI error: " ++
      (if stderr = "" then "Unknown CLI error" else stderr))) := by
    rw [hatt]; simp [callCli, hrc]
  have hloop := runLoop_runtime_terminal cfg.retry_wait_time block attempts
    (mro.getD cfg.max_retries + 1) 1 _ (by omega) hmsg hr hl
  simp [callService, hloop]

/-- Attempt oracle for the C6 witness: every attempt exits non-zero with
stderr "invalid schema". -/
def attemptsInvalidSchema : Nat → Except CliExn (Dict × Nat) :=
  fun _ => callCli (.completed 1 "invalid schema" .malformed)

/-- Witness for C6: the message "invalid schema" (no "rate"/"limit"
substring) terminates after exactly one attempt with an empty result,
despite a retry budget of 2. -/
theorem claim6_witness :
    attemptsInvalidSchema 1 = callCli (.completed 1 "invalid schema" .malformed) ∧
    (1 : Int) ≠ 0 ∧
    strIn "rate" (strLower ("Claude CLI error: " ++
      (if "invalid schema" = "" then "Unknown CLI error" else "invalid schema"))) = false ∧
    strIn "limit" (strLower ("Claude CLI error: " ++
      (if "invalid schema" = "" then "Unknown CLI error" else "invalid schema"))) = false ∧
    callService ⟨2, 3, 120⟩ true [] (fun _ => true) attemptsInvalidSchema none =
      ([Event.attempt 1], []) :=
  ⟨rfl, by decide, by decide, by decide,
    claim6_terminal_error ⟨2, 3, 120⟩ true [] (fun _ => true) attemptsInvalidSchema none
      1 "invalid schema" .malformed rfl (by decide) (by decide) (by decide)⟩

/-- C7: on a well-formed envelope with an empty structured-output payload,
if the attempt is not the last one the next attempt begins with no sleep
event in between (only the attempt marker and a possible usage report
precede the next iteration), and if it is the last attempt the loop ends
with the empty dict. -/
theorem claim7_empty_payload
    (rwt : Nat) (block : Bool) (attempts : Nat → Except CliExn (Dict × Nat))
    (totalTries tries t : Nat)
    (ha : attempts tries = .ok ([], t)) :
    (tries < totalTries →
      runLoop rwt block attempts totalTries tries =
        (Event.attempt tries :: (if block ∧ 0 < t then [Event.report t 1] else []) ++
          (runLoop rwt block attempts totalTries (tries + 1)).1,
         (runLoop rwt block attempts totalTries (tries + 1)).2) ∧
      ∀ w, Event.sleep w ∉
        Event.attempt tries :: (if block ∧ 0 < t then [Event.report t 1] else [])) ∧
    (tries = totalTries →
      runLoop rwt block attempts totalTries tries =
        (Event.attempt tries :: (if block ∧ 0 < t then [Event.report t 1] else []), [])) := by
  constructor
  · intro hlt
    constructor
    · have hstep := runLoop_ok rwt block attempts totalTries tries [] t (by omega) ha
      simpa using hstep
    · intro w
      by_cases hb : block ∧ 0 < t <;> simp [hb]
  · intro he
    subst he
    have hstep := runLoop_ok rwt block attempts tries tries [] t le_rfl ha
    have h0 : runLoop rwt block attempts tries (tries + 1) = ([], []) := by
      unfold runLoop
      have hz : tries + 1 - (tries + 1) = 0 := by omega
      rw [hz]
      exact runLoopAux_zero rwt block attempts tries (tries + 1)
    rw [hstep, h0]
    simp

/-- Witness for C7: an empty payload on attempt 1 of 3 recurses into
attempt 2 with no event between the attempt marker and the next
iteration. -/
theorem claim7_witness :
    (fun _ : Nat => (Except.ok ([], 0) : Except CliExn (Dict × Nat))) 1 = .ok ([], 0) ∧
    runLoop 9 true (fun _ : Nat => (Except.ok ([], 0) : Except CliExn (Dict × Nat))) 3 1 =
      (Event.attempt 1 ::
        (runLoop 9 true (fun _ : Nat => (Except.ok ([], 0) : Except CliExn (Dict × Nat))) 3 2).1,
       (runLoop 9 true (fun _ : Nat => (Except.ok ([], 0) : Except CliExn (Dict × Nat))) 3 2).2) :=
  ⟨rfl, ((claim7_empty_payload 9 true _ 3 1 0 rfl).1 (by decide)).1⟩

/-- C8: on a successful attempt — zero exit, parsed envelope, non-empty
structured-output payload — the loop returns the payload unchanged, and
the usage report it forwards (when a sink is present and the sum is
positive) carries exactly the sum of the four usage counters and request
count 1. -/
theorem claim8_success_report
    (rwt : Nat) (block : Bool) (attempts : Nat → Except CliExn (Dict × Nat))
    (totalTries tries : Nat) (stderr : String) (resp : Response) (d : Dict)
    (h : tries ≤ totalTries)
    (hatt : attempts tries = callCli (.completed 0 stderr (.json resp)))
    (hso : resp.structured_output = some d)
    (hd : d ≠ []) :
    runLoop rwt block attempts totalTries tries =
      (Event.attempt tries ::
        (if block ∧ 0 < totalTokens (resp.usage.getD emptyUsage)
         then [Event.report (totalTokens (resp.usage.getD emptyUsage)) 1] else []),
       d) := by
  have hok : attempts tries = .ok (d, totalTokens (resp.usage.getD emptyUsage)) := by
    rw [hatt]; simp [callCli, hso]
  have hstep := runLoop_ok rwt block attempts totalTries tries d
    (totalTokens (resp.usage.getD emptyUsage)) h hok
  simpa [hd] using hstep

/-- Envelope for the C8 witness: `usage = {input_tokens: 10, output_tokens: 5,
cache_creation_input_tokens: 0, cache_read_input_tokens: 0}` and a
non-empty payload. -/
def respSuccess : Response :=
  ⟨some false, some [("title", "x")], some ⟨some 10, some 0, some 0, some 5⟩⟩

/-- Attempt oracle for the C8 witness. -/
def attemptsSuccess : Nat → Except CliExn (Dict × Nat) :=
  fun _ => callCli (.completed 0 "" (.json respSuccess))

/-- Witness for C8: the 10/0/0/5 usage envelope reports one event of 15
tokens with request count 1 and returns its payload unchanged. -/
theorem claim8_witness :
    (1 : Nat) ≤ 1 ∧
    attemptsSuccess 1 = callCli (.completed 0 "" (.json respSuccess)) ∧
    respSuccess.structured_output = some [("title", "x")] ∧
    ([("title", "x")] : Dict) ≠ [] ∧
    runLoop 3 true attemptsSuccess 1 1 =
      ([Event.attempt 1, Event.report 15 1], [("title", "x")]) :=
  ⟨le_rfl, rfl, rfl, by decide,
    claim8_success_report 3 true attemptsSuccess 1 1 "" respSuccess [("title", "x")]
      le_rfl rfl rfl (by decide)⟩

/-- C9: the envelope's `is_error` flag never affects the outcome:
`_call_cli` returns the same value for two envelopes differing only in
`is_error`; in particular an envelope with `is_error = true` but a
non-empty `structured_output` is a success. -/
theorem claim9_is_error_ignored :
    (∀ (rc : Int) (stderr : String) (resp : Response) (b : Option Bool),
      callCli (.completed rc stderr (.json { resp with is_error := b })) =
        callCli (.completed rc stderr (.json resp))) ∧
    callCli (.completed 0 ""
      (.json ⟨some true, some [("k", "v")], some ⟨some 1, some 0, some 0, some 2⟩⟩)) =
      .ok ([("k", "v")], 3) := by
  constructor
  · intro rc stderr resp b
    cases resp
    rfl
  · decide

/-- C10: a parseable envelope with missing fields is tolerated through
defaults: with `structured_output` missing the attempt yields the empty
payload with token sum contributions defaulting to 0 (here `usage` missing
gives sum 0, so no report is forwarded) and, when not the last attempt, the
loop proceeds directly to the next iteration — no report, no sleep, not
terminal; and individually missing counters contribute 0 to the sum. -/
theorem claim10_missing_fields_defaults
    (rwt : Nat) (block : Bool) (attempts : Nat → Except CliExn (Dict × Nat))
    (totalTries tries : Nat) (stderr : String) (resp : Response)
    (hlt : tries < totalTries)
    (hso : resp.structured_output = none)
    (hus : resp.usage = none)
    (hatt : attempts tries = callCli (.completed 0 stderr (.json resp))) :
    attempts tries = .ok ([], 0) ∧
    runLoop rwt block attempts totalTries tries =
      (Event.attempt tries :: (runLoop rwt block attempts totalTries (tries + 1)).1,
       (runLoop rwt block attempts totalTries (tries + 1)).2) ∧
    ∀ a b : Nat, totalTokens ⟨some a, none, none, some b⟩ = a + b := by
  have hok : attempts tries = .ok ([], 0) := by
    rw [hatt]; simp [callCli, hso, hus, totalTokens, emptyUsage]
  refine ⟨hok, ?_, ?_⟩
  · have hstep := runLoop_ok rwt block attempts totalTries tries [] 0 (by omega) hok
    simpa using hstep
  · intro a b
    simp [totalTokens]

/-- Envelope for the C10 witness: all fields missing. -/
def respBare : Response := ⟨none, none, none⟩

/-- Attempt oracle for the C10 witness. -/
def attemptsBare : Nat → Except CliExn (Dict × Nat) :=
  fun _ => callCli (.completed 0 "" (.json respBare))

/-- Witness for C10: the bare envelope is classified as an empty payload
with token sum 0 and retried without a report or a sleep. -/
theorem claim10_witness :
    (1 : Nat) < 2 ∧
    respBare.structured_output = none ∧
    respBare.usage = none ∧
    attemptsBare 1 = callCli (.completed 0 "" (.json respBare)) ∧
    attemptsBare 1 = .ok ([], 0) ∧
    runLoop 5 true attemptsBare 2 1 =
      (Event.attempt 1 :: (runLoop 5 true attemptsBare 2 2).1,
       (runLoop 5 true attemptsBare 2 2).2) :=
  ⟨by decide, rfl, rfl, rfl,
    (claim10_missing_fields_defaults 5 true attemptsBare 2 1 "" respBare
      (by decide) rfl rfl rfl).1,
    (claim10_missing_fields_defaults 5 true attemptsBare 2 1 "" respBare
      (by decide) rfl rfl rfl).2.1⟩
